import Mathlib

/-!
# Verification of the AutoSense retrieval-and-reasoning core

A shallow embedding of the algorithmic core of the AutoSense repository:

* `src/agent/errors.py` — input validation and entity extraction
  (`validate_query`, `validate_vin`, `validate_dtc_code`, `sanitize_input`,
  `extract_and_validate_components`, `handle_edge_cases`, `get_error_suggestion`);
* `src/api_local.py` — the hybrid retrieval engine (`hybrid_search`,
  `search_local`) over the document corpus built from the SQLite tables
  (`build_bm25_index` / the per-query document construction in `search_local`);
* `src/agent/core.py` — the ReAct orchestrator (`AutoSenseAgent.react` and
  `_generate_fallback_response`).

Python floats are modelled as rationals (`ℚ`); all score arithmetic in the
source is simple enough (fixed constants 0.7/0.3/0.8/0.1/0.5, division by 10,
`min`) that the formulas carry over exactly.  Python strings are modelled as
Lean `String`, with the handful of `str` primitives the source uses
(`strip`, `split`, `lower`, `upper`, the `in` substring test) re-implemented
over the character list.  Python dictionaries whose key sets the claims talk
about are modelled as association lists in insertion order.  External
collaborators (the embedding provider, the BM25 library `rank_bm25`, the HTTP
transport, the OpenAI client) are parameters of the embedding, as the spec
treats them as external interfaces.
-/

namespace AutoSense

/-! ## Python string primitives -/

/-- The whitespace characters recognised by Python `str.strip` / `str.split`
(ASCII fragment). -/
def pyIsSpace (c : Char) : Bool :=
  c == ' ' || c == '\t' || c == '\n' || c == '\x0d' || c == '\x0b' || c == '\x0c'

/-- Python `str.strip` on a character list. -/
def pyStripCL (l : List Char) : List Char :=
  ((l.dropWhile pyIsSpace).reverse.dropWhile pyIsSpace).reverse

/-- Python `str.strip`. -/
def pyStrip (s : String) : String := ⟨pyStripCL s.data⟩

/-- Python `str.lower` (ASCII). -/
def lowerS (s : String) : String := ⟨s.data.map Char.toLower⟩

/-- Python `str.upper` (ASCII). -/
def upperS (s : String) : String := ⟨s.data.map Char.toUpper⟩

/-- Whether `small` is a contiguous prefix of `big`. -/
def prefCL : List Char → List Char → Bool
  | [], _ => true
  | _ :: _, [] => false
  | a :: as, b :: bs => a == b && prefCL as bs

/-- Whether `needle` occurs as a contiguous sublist of `hay`
(Python `needle in hay`). -/
def containsCL (needle : List Char) : List Char → Bool
  | [] => prefCL needle []
  | c :: rest => prefCL needle (c :: rest) || containsCL needle rest

/-- Python `needle in hay` on strings. -/
def pyIn (needle hay : String) : Bool := containsCL needle.data hay.data

/-- Helper for `str.split()`: accumulate the current (reversed) token while
walking the character list. -/
def tokensAux : List Char → List Char → List (List Char)
  | acc, [] => if acc = [] then [] else [acc.reverse]
  | acc, c :: cs =>
      if pyIsSpace c then
        if acc = [] then tokensAux [] cs else acc.reverse :: tokensAux [] cs
      else tokensAux (c :: acc) cs

/-- Python `str.split()` (split on whitespace runs, dropping empty pieces). -/
def tokensS (s : String) : List (List Char) := tokensAux [] s.data

/-! ## `src/agent/errors.py` -/

/-- The `QueryError` hierarchy of `src/agent/errors.py`; every payload is the
data interpolated into the exception message. -/
inductive QErr where
  | EmptyQuery : QErr
  | TooLong : QErr
  | Malformed (pattern : String) : QErr
  | InvalidVIN (vin : String) : QErr
  | InvalidDTC (code : String) : QErr
deriving DecidableEq

/-- Python `type(e).__name__` of each error. -/
def errName : QErr → String
  | .EmptyQuery => "EmptyQueryError"
  | .TooLong => "LongInputError"
  | .Malformed _ => "MalformedInputError"
  | .InvalidVIN _ => "InvalidVINError"
  | .InvalidDTC _ => "InvalidDTCError"

/-- Python `str(e)` of each error. -/
def errMsg : QErr → String
  | .EmptyQuery => "Query cannot be empty"
  | .TooLong => "Query exceeds maximum length of 500 characters"
  | .Malformed p => "Query contains suspicious content: " ++ p
  | .InvalidVIN v =>
      "Invalid VIN format: " ++ v ++
        ". VIN must be 17 characters and contain only valid characters."
  | .InvalidDTC c =>
      "Invalid DTC code format: " ++ c ++
        ". DTC must be P/B/C/U followed by 4 digits."

/-- The fixed injection-pattern denylist of `validate_query` (all four regexes
are literal strings, matched case-insensitively). -/
def suspiciousPatterns : List String :=
  ["<script", "javascript:", "data:text/html", "vbscript:"]

/-- The first denylist pattern occurring (case-insensitively) in the query. -/
def suspiciousHit (q : String) : Option String :=
  suspiciousPatterns.find? (fun p => pyIn p (lowerS q))

/-- `validate_query` (`errors.py` lines 38-56): empty/whitespace-only fails
`EmptyQueryError`, then length > 500 fails `LongInputError`, then an
injection-pattern hit fails `MalformedInputError`. -/
def validate_query (q : String) : Except QErr Unit :=
  if pyStripCL q.data = [] then Except.error QErr.EmptyQuery
  else if 500 < q.data.length then Except.error QErr.TooLong
  else
    match suspiciousHit q with
    | some p => Except.error (QErr.Malformed p)
    | none => Except.ok ()

/-- Membership in the VIN alphabet `[A-HJ-NPR-Z0-9]`. -/
def vinChar (c : Char) : Bool :=
  (c.isUpper && !(c == 'I' || c == 'O' || c == 'Q')) || c.isDigit

/-- The regex `^[A-HJ-NPR-Z0-9]{17}$` of `validate_vin`. -/
def vinPatternOK (s : String) : Bool :=
  decide (s.data.length = 17) && s.data.all vinChar

/-- `validate_vin` (`errors.py` lines 59-72).  A falsy argument (`None` or the
empty string) is passed through as `None`; otherwise the value is stripped,
uppercased and matched against the 17-character VIN pattern. -/
def validate_vin (vin : Option String) : Except QErr (Option String) :=
  match vin with
  | none => Except.ok none
  | some s =>
      if s = "" then Except.ok none
      else
        let v := upperS (pyStrip s)
        if vinPatternOK v then Except.ok (some v)
        else Except.error (QErr.InvalidVIN v)

/-- The regex `^[PBCU][0-9]{4}$` of `validate_dtc_code`. -/
def dtcPatternOK (s : String) : Bool :=
  match s.data with
  | c :: rest =>
      (c == 'P' || c == 'B' || c == 'C' || c == 'U') &&
        decide (rest.length = 4) && rest.all Char.isDigit
  | [] => false

/-- `validate_dtc_code` (`errors.py` lines 75-88). -/
def validate_dtc_code (code : Option String) : Except QErr (Option String) :=
  match code with
  | none => Except.ok none
  | some s =>
      if s = "" then Except.ok none
      else
        let v := upperS (pyStrip s)
        if dtcPatternOK v then Except.ok (some v)
        else Except.error (QErr.InvalidDTC v)

/-- The ASCII apostrophe (one of the characters `sanitize_input` removes). -/
def aposChar : Char := Char.ofNat 39

/-- The denylist of characters removed by `sanitize_input`. -/
def dangerousChar (c : Char) : Bool :=
  c == '<' || c == '>' || c == '"' || c == aposChar || c == '&'

/-- `sanitize_input` (`errors.py` lines 91-101): drop the dangerous characters,
then collapse whitespace via `' '.join(text.split())`. -/
def sanitize_input (s : String) : String :=
  ⟨List.intercalate [' '] (tokensAux [] (s.data.filter (fun c => !dangerousChar c)))⟩

/-- Word characters for the regex word boundary `\b` (ASCII `\w`). -/
def isWordChar (c : Char) : Bool := c.isAlpha || c.isDigit || c == '_'

/-- Whether the regex `\b[A-HJ-NPR-Z0-9]{17}\b` matches at the head of `l`,
given that the position itself is at a word boundary. -/
def vinAt (l : List Char) : Bool :=
  decide ((l.take 17).length = 17) && (l.take 17).all vinChar &&
    (match l.drop 17 with
     | [] => true
     | c :: _ => !isWordChar c)

/-- Scan for the leftmost match of `\b[A-HJ-NPR-Z0-9]{17}\b`; `prev` is the
character before the current position (`none` at the start of the string). -/
def scanVin : Option Char → List Char → Option String
  | _, [] => none
  | prev, c :: cs =>
      if (match prev with
          | none => true
          | some p => !isWordChar p) && vinAt (c :: cs)
      then some ⟨(c :: cs).take 17⟩
      else scanVin (some c) cs

/-- `re.search(r'\b[A-HJ-NPR-Z0-9]{17}\b', s)` returning the matched text. -/
def findVin17 (s : String) : Option String := scanVin none s.data

/-- Whether the regex `\b[PBCU][0-9]{4}\b` matches at the head of `l`. -/
def dtcAt (l : List Char) : Bool :=
  match l with
  | c :: rest =>
      (c == 'P' || c == 'B' || c == 'C' || c == 'U') &&
        decide ((rest.take 4).length = 4) && (rest.take 4).all Char.isDigit &&
        (match rest.drop 4 with
         | [] => true
         | d :: _ => !isWordChar d)
  | [] => false

/-- Scan for the leftmost match of `\b[PBCU][0-9]{4}\b`. -/
def scanDtc : Option Char → List Char → Option String
  | _, [] => none
  | prev, c :: cs =>
      if (match prev with
          | none => true
          | some p => !isWordChar p) && dtcAt (c :: cs)
      then some ⟨(c :: cs).take 5⟩
      else scanDtc (some c) cs

/-- `re.search(r'\b[PBCU][0-9]{4}\b', s)` returning the matched text. -/
def findDtc (s : String) : Option String := scanDtc none s.data

/-- The `components` dictionary built by `extract_and_validate_components`. -/
structure Components where
  vin : Option String
  dtc_code : Option String
  sanitized_query : String
deriving DecidableEq

/-- `extract_and_validate_components` (`errors.py` lines 104-130): extract the
first VIN-shaped and DTC-shaped substrings of the uppercased query and re-run
them through the strict validators, keeping `None` on a validation failure. -/
def extract_and_validate_components (q : String) : Components :=
  let base : Components :=
    { vin := none, dtc_code := none, sanitized_query := sanitize_input q }
  let withVin :=
    match findVin17 (upperS q) with
    | some m =>
        match validate_vin (some m) with
        | Except.ok v => { base with vin := v }
        | Except.error _ => base
    | none => base
  match findDtc (upperS q) with
  | some m =>
      match validate_dtc_code (some m) with
      | Except.ok d => { withVin with dtc_code := d }
      | Except.error _ => withVin
  | none => withVin

/-- Values stored in the result dictionaries of `handle_edge_cases`. -/
inductive PyVal where
  | pstr (s : String) : PyVal
  | pbool (b : Bool) : PyVal
  | pnone : PyVal
  | plist (l : List String) : PyVal
deriving DecidableEq

/-- A Python `Optional[str]` value placed into a dictionary. -/
def optVal : Option String → PyVal
  | none => PyVal.pnone
  | some s => PyVal.pstr s

/-- The caller-VIN override step of `handle_edge_cases` (lines 143-147): a
truthy caller VIN replaces the extracted one if it validates, and is silently
dropped otherwise. -/
def applyCallerVin (c : Components) (vin : Option String) : Components :=
  match vin with
  | none => c
  | some v =>
      if v = "" then c
      else
        match validate_vin (some v) with
        | Except.ok nv => { c with vin := nv }
        | Except.error _ => c

/-- `handle_edge_cases` (`errors.py` lines 133-174), the body of
`ensure_valid_input`.  The result dictionary is modelled as an association
list in Python insertion order.  Every exception raised inside the `try`
block is a `QueryError` from `validate_query` (the two extraction-time
validations catch their own errors), so the `except QueryError` branch is the
only reachable handler. -/
def handle_edge_cases (q : String) (vin : Option String) : List (String × PyVal) :=
  match validate_query q with
  | Except.ok _ =>
      let c := applyCallerVin (extract_and_validate_components q) vin
      [("vin", optVal c.vin), ("dtc_code", optVal c.dtc_code),
       ("sanitized_query", PyVal.pstr c.sanitized_query),
       ("is_valid", PyVal.pbool true), ("errors", PyVal.plist [])]
  | Except.error e =>
      [("is_valid", PyVal.pbool false), ("error", PyVal.pstr (errMsg e)),
       ("error_type", PyVal.pstr (errName e)),
       ("sanitized_query", PyVal.pstr (sanitize_input q)),
       ("vin", PyVal.pnone), ("dtc_code", PyVal.pnone)]

/-- `get_error_suggestion` (`errors.py` lines 189-202): the static
per-error-kind suggestion strings. -/
def get_error_suggestion : QErr → String
  | QErr.EmptyQuery => "Please provide a description of the problem or a DTC code."
  | QErr.TooLong => "Please keep your query under 500 characters."
  | QErr.InvalidVIN _ =>
      "VIN should be 17 characters long and contain only letters (excluding I, O, Q) and numbers."
  | QErr.InvalidDTC _ =>
      "DTC code should start with P, B, C, or U followed by 4 digits (e.g., P0420)."
  | QErr.Malformed _ => "Please provide a valid automotive diagnostic query."

/-! ## `src/api_local.py` — data model

The document corpus is built from the two SQLite tables `dtc` and `recall`
(`build_bm25_index` lines 150-193 and `search_local` lines 246-284).  A row of
either table is modelled below; nullable columns are `Option`s.  A Python
`None` interpolated into an f-string renders as `"None"`. -/

/-- A row of the `dtc` table. -/
structure DtcRow where
  code : String
  category : String
  description : String
deriving DecidableEq

/-- A row of the `recall` table. -/
structure RecallRow where
  nhtsa_id : Int
  rvin : Option String
  rdate : Option String
  summary : Option String
deriving DecidableEq

/-- The database contents the retrieval engine reads. -/
structure DB where
  dtcs : List DtcRow
  recalls : List RecallRow
deriving DecidableEq

/-- Render a Python `Optional[str]` inside an f-string. -/
def pyShowO : Option String → String
  | none => "None"
  | some s => s

/-- The `rid` entry of a recall document: `build_bm25_index` stores
`str(rid)` while `search_local` stores the raw integer, so Python `==` on the
two shapes is `False` even for the same recall. -/
inductive RidVal where
  | rstr (s : String) : RidVal
  | rint (n : Int) : RidVal
deriving DecidableEq

/-- A retrievable document / scored result.  This is the union of the key
sets of the dictionaries built in `build_bm25_index`, `search_local` and
`hybrid_search`; `none` in an `Option` field models an absent key (or a SQL
`NULL` where the column is nullable). -/
structure RDoc where
  text : String
  dtype : String
  code : Option String
  category : Option String
  description : Option String
  rid : Option RidVal
  vin : Option String
  date : Option String
  summary : Option String
  score : ℚ
  vector_score : Option ℚ
  bm25_score : Option ℚ
deriving DecidableEq, Inhabited

/-- Display text of a DTC document: `f"DTC {code} ({category}): {desc}"`. -/
def dtcText (r : DtcRow) : String :=
  "DTC " ++ r.code ++ " (" ++ r.category ++ "): " ++ r.description

/-- Display text of a recall document:
`f"Recall {rid} ({date}): {summ}"`. -/
def recallText (r : RecallRow) : String :=
  "Recall " ++ toString r.nhtsa_id ++ " (" ++ pyShowO r.rdate ++ "): " ++
    pyShowO r.summary

/-- The DTC document shape (identical in `build_bm25_index` and
`search_local`, up to the initial `score` key the latter adds). -/
def dtcDoc (r : DtcRow) : RDoc :=
  { text := dtcText r, dtype := "dtc", code := some r.code,
    category := some r.category, description := some r.description,
    rid := none, vin := none, date := none, summary := none,
    score := 0, vector_score := none, bm25_score := none }

/-- The recall document of `build_bm25_index` (lines 173-183): `rid` is the
stringified id and `date` is `str(date) if date else None`. -/
def recallDocB (r : RecallRow) : RDoc :=
  { text := recallText r, dtype := "recall", code := none, category := none,
    description := none, rid := some (RidVal.rstr (toString r.nhtsa_id)),
    vin := r.rvin,
    date := match r.rdate with
            | some d => if d = "" then none else some d
            | none => none,
    summary := r.summary, score := 0, vector_score := none, bm25_score := none }

/-- The recall document of `search_local` (lines 273-284): `rid` is the raw
integer id. -/
def recallDocL (r : RecallRow) : RDoc :=
  { text := recallText r, dtype := "recall", code := none, category := none,
    description := none, rid := some (RidVal.rint r.nhtsa_id),
    vin := r.rvin, date := r.rdate, summary := r.summary,
    score := 0, vector_score := none, bm25_score := none }

/-- The global `documents` list built by `build_bm25_index` at startup. -/
def buildDocs (db : DB) : List RDoc :=
  db.dtcs.map dtcDoc ++ db.recalls.map recallDocB

/-- The per-query document list rebuilt by `search_local`. -/
def searchLocalDocs (db : DB) : List RDoc :=
  db.dtcs.map dtcDoc ++ db.recalls.map recallDocL

/-! ## The stable descending sort

Python `list.sort(key=..., reverse=True)` is a stable sort ordered by
descending key.  It is modelled as an insertion sort in which a newly inserted
element passes every element of strictly larger key and stops in front of the
first element of smaller-or-equal key; folding from the right makes earlier
list elements overtake equal-keyed later ones, which is exactly stability. -/

/-- Insert `x` into `l` (assumed sorted by descending `key`), before the first
element whose key is at most `key x`. -/
def insDesc {α : Type} (key : α → ℚ) (x : α) : List α → List α
  | [] => [x]
  | y :: ys => if key y ≤ key x then x :: y :: ys else y :: insDesc key x ys

/-- Stable sort by descending `key`. -/
def stableSortDesc {α : Type} (key : α → ℚ) (l : List α) : List α :=
  l.foldr (insDesc key) []

/-! ## `search_local` (`api_local.py` lines 242-310) -/

/-- Python truthiness of an `Optional[str]`. -/
def truthyO : Option String → Bool
  | none => false
  | some s => !(s = "")

/-- The distinct-token overlap
`len(set(q.split()) & set(t.split()))` (both arguments already lowercased). -/
def overlapCount (q t : String) : Nat :=
  ((tokensS q).dedup.filter (fun w => decide (w ∈ tokensS t))).length

/-- The VIN bonus test of `search_local` (line 303):
`vin and doc.get("vin") and vin.upper() in doc["vin"].upper()`. -/
def vinBoost : Option String → Option String → Bool
  | some v, some dv => !(v = "") && !(dv = "") && pyIn (upperS v) (upperS dv)
  | _, _ => false

/-- The keyword-overlap score of one document (`search_local` lines 286-306):
0.8 for a whole-query substring hit, 0.1 per distinct shared token, 0.5 for a
VIN-substring match, capped at 1. -/
def scoreDoc (query : String) (vin : Option String) (d : RDoc) : ℚ :=
  let s1 : ℚ := if pyIn (lowerS query) (lowerS d.text) then 0.8 else 0
  let s2 : ℚ := (overlapCount (lowerS query) (lowerS d.text) : ℚ) * 0.1
  let s3 : ℚ := if vinBoost vin d.vin then 0.5 else 0
  min (s1 + s2 + s3) 1

/-- `search_local`: score every document of the corpus, sort by descending
score (stable) and keep the top `k`. -/
def search_local (db : DB) (query : String) (k : Nat) (vin : Option String) :
    List RDoc :=
  (stableSortDesc RDoc.score
    ((searchLocalDocs db).map (fun d => { d with score := scoreDoc query vin d }))).take k

/-! ## `hybrid_search` (`api_local.py` lines 196-239)

The globals `documents` and `bm25_index` are set together by
`build_bm25_index` at application startup: `documents` is `buildDocs db` and
`bm25_index` is present iff `documents` is non-empty.  The degraded-mode test
`not documents or not bm25_index` is therefore `buildDocs db = []` in every
reachable state, and the BM25 score vector is an uninterpreted function
`raw : Nat → ℚ` of the document index (the `rank_bm25` library is an external
collaborator). -/

/-- The VIN filter of `hybrid_search` (lines 212-214): a document is dropped
iff the filter VIN is truthy, the document has a truthy `vin` attribute, and
the two differ. -/
def vinKeep (vin : Option String) (d : RDoc) : Bool :=
  !(truthyO vin && truthyO d.vin && !(d.vin = vin))

/-- The vector-result matching test of `hybrid_search` (lines 218-220):
`doc.get("code") == vec.get("code") or doc.get("rid") == vec.get("rid")`,
with Python `==` semantics (`None == None` is `True`, `str == int` is
`False`). -/
def vecMatch (d v : RDoc) : Bool :=
  decide (d.code = v.code) || decide (d.rid = v.rid)

/-- The vector score assigned to `d`: the score of the first matching entry
of `vector_results`, defaulting to 0. -/
def vecScoreFor (vres : List RDoc) (d : RDoc) : ℚ :=
  match vres.find? (vecMatch d) with
  | some v => v.score
  | none => 0

/-- BM25 normalisation (line 225):
`min(raw / 10.0, 1.0) if raw > 0 else 0.0`. -/
def normBM25 (s : ℚ) : ℚ := if 0 < s then min (s / 10) 1 else 0

/-- `enumerate` on a list, carried out explicitly. -/
def withIdx {α : Type} : Nat → List α → List (Nat × α)
  | _, [] => []
  | n, a :: as => (n, a) :: withIdx (n + 1) as

/-- One combined entry of `hybrid_search` (lines 216-235):
`{**doc, "score": 0.7 * vector + 0.3 * bm25, "vector_score": ...,
"bm25_score": ...}`. -/
def hybridEntry (vres : List RDoc) (raw : Nat → ℚ) (p : Nat × RDoc) : RDoc :=
  let vs := vecScoreFor vres p.2
  let bs := normBM25 (raw p.1)
  { p.2 with score := 0.7 * vs + 0.3 * bs,
             vector_score := some vs, bm25_score := some bs }

/-- The unsorted combined-result list of `hybrid_search`. -/
def hybridCandidates (db : DB) (raw : Nat → ℚ) (query : String) (k : Nat)
    (vin : Option String) : List RDoc :=
  (withIdx 0 (buildDocs db)).filterMap
    (fun p => if vinKeep vin p.2 then
        some (hybridEntry (search_local db query (k * 2) vin) raw p)
      else none)

/-- `hybrid_search`: fall back to `search_local` in degraded mode, otherwise
score every surviving document and return the top `k` by combined score. -/
def hybrid_search (db : DB) (raw : Nat → ℚ) (query : String) (k : Nat)
    (vin : Option String) : List RDoc :=
  if buildDocs db = [] then search_local db query k vin
  else (stableSortDesc RDoc.score (hybridCandidates db raw query k vin)).take k

/-- The pre-sort candidate list of whichever branch `hybrid_search` takes. -/
def searchCands (db : DB) (raw : Nat → ℚ) (query : String) (k : Nat)
    (vin : Option String) : List RDoc :=
  if buildDocs db = [] then
    (searchLocalDocs db).map (fun d => { d with score := scoreDoc query vin d })
  else hybridCandidates db raw query k vin

/-! ## `src/agent/core.py` — the ReAct orchestrator

`AutoSenseAgent.react` talks to the API and to OpenAI over the network; those
collaborators are an explicit environment.  `AutoSenseAgent.search`,
`lookup_dtc` and `lookup_recalls` catch their own transport errors and return
`[]` / `None`, so the environment functions are total.  The Python local
`recalls` is assigned only inside the `if extracted_vin:` block (line 135);
reading it when no VIN is present raises `UnboundLocalError`, modelled by
`readVar` below.  The catch-all at lines 163-170 turns any exception of the
body into the four-key error dictionary. -/

/-- The JSON body returned by the `/dtc/{code}` endpoint. -/
structure DtcInfo where
  code : String
  category : String
  description : String
deriving DecidableEq

/-- One entry of the `recalls` list returned by `/recalls/{vin}`. -/
structure RecallInfo where
  nhtsa_id : Int
  date : Option String
  summary : Option String
deriving DecidableEq

/-- The agent environment: configuration plus the external collaborators of
`AutoSenseAgent` (the search API, the two lookup endpoints and the
generative-model provider; `llmFn` errors model a failed or unreachable
OpenAI call). -/
structure Env where
  apiKey : Option String
  searchFn : String → Option String → Nat → List RDoc
  dtcFn : String → Option DtcInfo
  recallsFn : String → List RecallInfo
  llmFn : String → Except String String

/-- Python `a or b` on `Optional[str]` values. -/
def pyOrO : Option String → Option String → Option String
  | some v, alt => if v = "" then alt else some v
  | none, alt => alt

/-- The message of the `UnboundLocalError` raised when `react` reads the
`recalls` local without a VIN having been extracted. -/
def unboundMsg : String :=
  "UnboundLocalError: local variable recalls referenced before assignment"

/-- Read a Python local that may not have been assigned yet. -/
def readVar {α : Type} : Option α → Except String α
  | some a => Except.ok a
  | none => Except.error unboundMsg

/-- Render the `rid` field inside an f-string. -/
def pyShowRid : Option RidVal → String
  | none => "None"
  | some (RidVal.rstr s) => s
  | some (RidVal.rint n) => toString n

/-- `_generate_fallback_response` (`core.py` lines 226-255): the deterministic
templated answer used when no generative model is available. -/
def fallbackResp (query : String) (srs : List RDoc) (dtc : Option String)
    (vin : Option String) (recalls : List RecallInfo) : String :=
  let p0 := ["Diagnostic analysis for: " ++ query]
  let p1 := if truthyO dtc then ["\n**DTC Code Detected**: " ++ pyShowO dtc] else []
  let p2 :=
    if srs = [] then []
    else
      "\n**Relevant Information Found**:" ::
        (srs.take 3).filterMap (fun r =>
          if r.dtype = "dtc" then
            some ("- DTC " ++ pyShowO r.code ++ ": " ++
              (match r.description with
               | some d => d
               | none => "No description"))
          else if r.dtype = "recall" then
            some ("- Recall " ++ pyShowRid r.rid ++ ": " ++
              (match r.summary with
               | some s => s
               | none => "No summary"))
          else none)
  let p3 :=
    if recalls = [] then []
    else
      ("\n**Recalls for VIN " ++ pyShowO vin ++ "**:") ::
        (recalls.take 2).map (fun rc =>
          "- " ++ (match rc.summary with
                   | some s => s
                   | none => "No summary"))
  String.intercalate "\n"
    (p0 ++ p1 ++ p2 ++ p3 ++
      ["\n**Recommendation**: Please consult with a qualified automotive technician for proper diagnosis and repair."])

/-- The successful result bundle of `react` (lines 149-161).  The wall-clock
fields `processing_time` and `timestamp` carry no modelled value; they appear
in the key set below. -/
structure Bundle where
  query : String
  vin : Option String
  dtc_code : Option String
  answer : String
  thoughts : List String
  actions : List String
  observations : List String
  search_results : List RDoc
  recalls : List RecallInfo
deriving DecidableEq

/-- The `try` body of `AutoSenseAgent.react` (lines 110-161); an
`Except.error` is an uncaught Python exception reaching the handler. -/
def reactBody (env : Env) (query : String) (vin : Option String) :
    Except String Bundle :=
  let extracted_vin := pyOrO vin (findVin17 (upperS query))
  let extracted_dtc := findDtc (upperS query)
  let search_results := env.searchFn query extracted_vin 5
  let obs1 := ["Found " ++ toString search_results.length ++ " relevant results"]
  let dtcStep : List String × List String :=
    match extracted_dtc with
    | some d =>
        (["lookup_dtc"],
         match env.dtcFn d with
         | some _ => ["Retrieved detailed DTC information for " ++ d]
         | none => ["No detailed information found for DTC " ++ d])
    | none => ([], [])
  let recallsVar : Option (List RecallInfo) :=
    match extracted_vin with
    | some v => if v = "" then none else some (env.recallsFn v)
    | none => none
  let vinStep : List String × List String :=
    match extracted_vin with
    | some v =>
        if v = "" then ([], [])
        else (["lookup_recalls"],
              ["Found " ++ toString (env.recallsFn v).length ++
                 " recalls for VIN " ++ v])
    | none => ([], [])
  let answerE : Except String String :=
    if truthyO env.apiKey then
      (readVar recallsVar).map (fun rc =>
        match env.llmFn query with
        | Except.ok t => t
        | Except.error _ =>
            fallbackResp query search_results extracted_dtc extracted_vin rc)
    else
      (readVar recallsVar).map (fun rc =>
        fallbackResp query search_results extracted_dtc extracted_vin rc)
  match answerE with
  | Except.error e => Except.error e
  | Except.ok answer =>
      Except.ok
        { query := query, vin := extracted_vin, dtc_code := extracted_dtc,
          answer := answer,
          thoughts :=
            ["Analyzing the automotive diagnostic query to understand the problem and determine required information.",
             "Synthesizing all gathered information to provide a comprehensive diagnosis."],
          actions := ["search"] ++ dtcStep.1 ++ vinStep.1,
          observations := obs1 ++ dtcStep.2 ++ vinStep.2,
          search_results := search_results,
          recalls :=
            if truthyO extracted_vin then
              match recallsVar with
              | some rc => rc
              | none => []
            else [] }

/-- The value returned by `AutoSenseAgent.react`: either the full result
bundle, or the error dictionary built by the catch-all handler
(lines 163-170). -/
inductive ReactResult where
  | ok (b : Bundle) : ReactResult
  | err (query error : String) : ReactResult
deriving DecidableEq

/-- `AutoSenseAgent.react`. -/
def react (env : Env) (query : String) (vin : Option String) : ReactResult :=
  match reactBody env query vin with
  | Except.ok b => ReactResult.ok b
  | Except.error e => ReactResult.err query e

/-- The key set (in insertion order) of the dictionary `react` returns. -/
def ReactResult.keys : ReactResult → List String
  | ReactResult.ok _ =>
      ["query", "vin", "dtc_code", "answer", "thoughts", "actions",
       "observations", "search_results", "recalls", "processing_time",
       "timestamp"]
  | ReactResult.err _ _ => ["query", "error", "processing_time", "timestamp"]

/-! ## Lemmas about the stable descending sort -/

theorem mem_insDesc {α : Type} (key : α → ℚ) (x : α) (l : List α) (z : α) :
    z ∈ insDesc key x l ↔ z = x ∨ z ∈ l := by
  induction l with
  | nil => simp [insDesc]
  | cons y ys ih =>
      by_cases h : key y ≤ key x
      · simp [insDesc, h]
      · simp only [insDesc, if_neg h, List.mem_cons, ih]
        tauto

theorem sorted_insDesc {α : Type} (key : α → ℚ) (x : α) (l : List α)
    (h : l.Pairwise (fun a b => key b ≤ key a)) :
    (insDesc key x l).Pairwise (fun a b => key b ≤ key a) := by
  induction l with
  | nil => simp [insDesc]
  | cons y ys ih =>
      rcases List.pairwise_cons.mp h with ⟨hy, hys⟩
      show List.Pairwise _ (if key y ≤ key x then x :: y :: ys else y :: insDesc key x ys)
      by_cases hxy : key y ≤ key x
      · rw [if_pos hxy]
        refine List.pairwise_cons.mpr ⟨?_, h⟩
        intro z hz
        rcases List.mem_cons.mp hz with rfl | hz
        · exact hxy
        · exact le_trans (hy z hz) hxy
      · rw [if_neg hxy]
        refine List.pairwise_cons.mpr ⟨?_, ih hys⟩
        intro z hz
        rcases (mem_insDesc key x ys z).mp hz with rfl | hz
        · exact le_of_lt (lt_of_not_le hxy)
        · exact hy z hz

theorem sorted_stableSortDesc {α : Type} (key : α → ℚ) (l : List α) :
    (stableSortDesc key l).Pairwise (fun a b => key b ≤ key a) := by
  induction l with
  | nil => simp [stableSortDesc]
  | cons x xs ih => exact sorted_insDesc key x _ ih

theorem mem_stableSortDesc {α : Type} (key : α → ℚ) (l : List α) (z : α) :
    z ∈ stableSortDesc key l ↔ z ∈ l := by
  induction l with
  | nil => simp [stableSortDesc]
  | cons x xs ih =>
      show z ∈ insDesc key x (stableSortDesc key xs) ↔ _
      rw [mem_insDesc, ih]
      simp [eq_comm]

theorem filter_insDesc {α : Type} (key : α → ℚ) (x : α) (l : List α) (c : ℚ) :
    (insDesc key x l).filter (fun a => decide (key a = c)) =
      if key x = c then x :: l.filter (fun a => decide (key a = c))
      else l.filter (fun a => decide (key a = c)) := by
  induction l with
  | nil =>
      show List.filter _ [x] = _
      by_cases hx : key x = c <;> simp [List.filter_cons, hx]
  | cons y ys ih =>
      show List.filter _ (if key y ≤ key x then x :: y :: ys else y :: insDesc key x ys) = _
      by_cases hxy : key y ≤ key x
      · rw [if_pos hxy]
        by_cases hx : key x = c <;> simp [List.filter_cons, hx]
      · rw [if_neg hxy, List.filter_cons, ih]
        by_cases hx : key x = c
        · have hy : ¬key y = c := fun hy => hxy (le_of_eq (hy.trans hx.symm))
          simp [List.filter_cons, hx, hy]
        · by_cases hy : key y = c <;> simp [List.filter_cons, hx, hy]

theorem filter_stableSortDesc {α : Type} (key : α → ℚ) (l : List α) (c : ℚ) :
    (stableSortDesc key l).filter (fun a => decide (key a = c)) =
      l.filter (fun a => decide (key a = c)) := by
  induction l with
  | nil => simp [stableSortDesc]
  | cons x xs ih =>
      show (insDesc key x (stableSortDesc key xs)).filter _ = _
      rw [filter_insDesc]
      by_cases hx : key x = c
      · simp [hx, List.filter_cons, ih]
      · simp [hx, List.filter_cons, ih]

/-! ## Score-bound and membership lemmas -/

theorem scoreDoc_bounds (q : String) (v : Option String) (d : RDoc) :
    0 ≤ scoreDoc q v d ∧ scoreDoc q v d ≤ 1 := by
  unfold scoreDoc
  refine ⟨le_min ?_ (by norm_num), min_le_right _ _⟩
  split_ifs <;> positivity

theorem mem_search_local (db : DB) (q : String) (k : Nat) (v : Option String)
    (r : RDoc) (h : r ∈ search_local db q k v) :
    ∃ d ∈ searchLocalDocs db, r = { d with score := scoreDoc q v d } := by
  unfold search_local at h
  have h1 := List.take_subset _ _ h
  have h2 := (mem_stableSortDesc RDoc.score _ r).mp h1
  rcases List.mem_map.mp h2 with ⟨d, hd, he⟩
  exact ⟨d, hd, he.symm⟩

theorem search_local_score_bounds (db : DB) (q : String) (k : Nat)
    (v : Option String) (r : RDoc) (h : r ∈ search_local db q k v) :
    0 ≤ r.score ∧ r.score ≤ 1 := by
  rcases mem_search_local db q k v r h with ⟨d, _, rfl⟩
  exact scoreDoc_bounds q v d

theorem normBM25_bounds (s : ℚ) : 0 ≤ normBM25 s ∧ normBM25 s ≤ 1 := by
  unfold normBM25
  split_ifs with h
  · exact ⟨le_min (by positivity) (by norm_num), min_le_right _ _⟩
  · norm_num

theorem normBM25_eq_clamp (s : ℚ) : normBM25 s = max 0 (min (s / 10) 1) := by
  unfold normBM25
  split_ifs with h
  · exact (max_eq_right (le_min (by positivity) (by norm_num))).symm
  · push_neg at h
    have h10 : s / 10 ≤ 0 := by linarith
    rw [min_eq_left (le_trans h10 (by norm_num)), max_eq_left h10]

theorem vecScoreFor_bounds (db : DB) (q : String) (k : Nat) (v : Option String)
    (d : RDoc) :
    0 ≤ vecScoreFor (search_local db q k v) d ∧
      vecScoreFor (search_local db q k v) d ≤ 1 := by
  cases hf : (search_local db q k v).find? (vecMatch d) with
  | none => simp [vecScoreFor, hf]
  | some w =>
      have hw : w ∈ search_local db q k v := List.mem_of_find?_eq_some hf
      have := search_local_score_bounds db q k v w hw
      simpa [vecScoreFor, hf] using this

theorem mem_withIdx {α : Type} (n : Nat) (l : List α) (p : Nat × α)
    (h : p ∈ withIdx n l) : p.1 < n + l.length ∧ p.2 ∈ l := by
  induction l generalizing n with
  | nil => simp [withIdx] at h
  | cons a as ih =>
      rcases List.mem_cons.mp h with rfl | h2
      · exact ⟨by simp, List.mem_cons_self a as⟩
      · rcases ih (n + 1) h2 with ⟨h3, h4⟩
        exact ⟨by simp at h3 ⊢; omega, List.mem_cons_of_mem a h4⟩

theorem mem_hybridCandidates (db : DB) (raw : Nat → ℚ) (q : String) (k : Nat)
    (v : Option String) (r : RDoc) (h : r ∈ hybridCandidates db raw q k v) :
    ∃ p : Nat × RDoc, p ∈ withIdx 0 (buildDocs db) ∧ vinKeep v p.2 = true ∧
      r = hybridEntry (search_local db q (k * 2) v) raw p := by
  unfold hybridCandidates at h
  rcases List.mem_filterMap.mp h with ⟨p, hp, hf⟩
  by_cases hk : vinKeep v p.2
  · rw [if_pos hk] at hf
    exact ⟨p, hp, hk, (Option.some.inj hf).symm⟩
  · rw [if_neg hk] at hf
    cases hf

theorem hybridEntry_score (vres : List RDoc) (raw : Nat → ℚ) (p : Nat × RDoc) :
    (hybridEntry vres raw p).score =
      0.7 * vecScoreFor vres p.2 + 0.3 * normBM25 (raw p.1) ∧
    (hybridEntry vres raw p).vector_score = some (vecScoreFor vres p.2) ∧
    (hybridEntry vres raw p).bm25_score = some (normBM25 (raw p.1)) := by
  exact ⟨rfl, rfl, rfl⟩

theorem hybridCandidates_score_bounds (db : DB) (raw : Nat → ℚ) (q : String)
    (k : Nat) (v : Option String) (r : RDoc)
    (h : r ∈ hybridCandidates db raw q k v) : 0 ≤ r.score ∧ r.score ≤ 1 := by
  rcases mem_hybridCandidates db raw q k v r h with ⟨p, _, _, rfl⟩
  rcases vecScoreFor_bounds db q (k * 2) v p.2 with ⟨hv0, hv1⟩
  rcases normBM25_bounds (raw p.1) with ⟨hb0, hb1⟩
  rw [(hybridEntry_score _ raw p).1]
  constructor
  · positivity
  · nlinarith

theorem hybrid_search_eq (db : DB) (raw : Nat → ℚ) (q : String) (k : Nat)
    (v : Option String) :
    hybrid_search db raw q k v =
      (stableSortDesc RDoc.score (searchCands db raw q k v)).take k := by
  unfold hybrid_search searchCands search_local
  by_cases h : buildDocs db = [] <;> simp [h]

theorem searchLocalDocs_of_buildDocs_nil (db : DB) (h : buildDocs db = []) :
    searchLocalDocs db = [] := by
  unfold buildDocs at h
  rcases List.append_eq_nil.mp h with ⟨h1, h2⟩
  unfold searchLocalDocs
  rw [List.map_eq_nil_iff.mp h1, List.map_eq_nil_iff.mp h2]
  rfl

theorem search_local_of_buildDocs_nil (db : DB) (q : String) (k : Nat)
    (v : Option String) (h : buildDocs db = []) : search_local db q k v = [] := by
  unfold search_local
  rw [searchLocalDocs_of_buildDocs_nil db h]
  simp [stableSortDesc]

/-! ## String lemmas for the validators -/

theorem dropWhile_of_all_false {α : Type} (p : α → Bool) (l : List α)
    (h : ∀ c ∈ l, p c = false) : l.dropWhile p = l := by
  cases l with
  | nil => rfl
  | cons a as =>
      rw [List.dropWhile_cons, h a (List.mem_cons_self a as)]
      simp

theorem pyStripCL_of_no_space (l : List Char)
    (h : ∀ c ∈ l, pyIsSpace c = false) : pyStripCL l = l := by
  unfold pyStripCL
  rw [dropWhile_of_all_false pyIsSpace l h,
      dropWhile_of_all_false pyIsSpace l.reverse
        (fun c hc => h c (List.mem_reverse.mp hc)),
      List.reverse_reverse]

theorem space_not_vinChar (c : Char) (h : pyIsSpace c = true) :
    vinChar (Char.toUpper c) = false := by
  simp only [pyIsSpace, Bool.or_eq_true, beq_iff_eq] at h
  rcases h with ((((rfl | rfl) | rfl) | rfl) | rfl) | rfl <;> decide

/-- `String.data` of an explicitly built string. -/
theorem data_mk (l : List Char) : (String.mk l).data = l := rfl

instance instDecEqExcept {ε α : Type} [DecidableEq ε] [DecidableEq α] :
    DecidableEq (Except ε α)
  | Except.ok a, Except.ok b =>
      match decEq a b with
      | isTrue h => isTrue (by rw [h])
      | isFalse h => isFalse (fun hc => h (Except.ok.inj hc))
  | Except.ok _, Except.error _ => isFalse (fun hc => Except.noConfusion hc)
  | Except.error _, Except.ok _ => isFalse (fun hc => Except.noConfusion hc)
  | Except.error d, Except.error e =>
      match decEq d e with
      | isTrue h => isTrue (by rw [h])
      | isFalse h => isFalse (fun hc => h (Except.error.inj hc))

/-! ## Claim C5 — `validate_vin` -/

/-- Claim C5, counterexample: the empty string has length ≠ 17, yet
`validate_vin` returns `Ok None` for it instead of failing with
`InvalidVIN` (the Python function passes falsy input straight through). -/
theorem validate_vin_empty_cex :
    ("" : String).data.length ≠ 17 ∧ validate_vin (some "") = Except.ok none := by
  constructor
  · decide
  · rfl

/-- Claim C5 (amended): for every 17-character string over the VIN alphabet
(in either letter case) `validate_vin` returns the uppercased input; every
other non-empty whitespace-free string fails with `InvalidVIN`; empty or
missing input is passed through as `None` without failing (the function also
strips surrounding whitespace before matching). -/
theorem validate_vin_amended (s : String) :
    ((s.data.length = 17 ∧ ∀ c ∈ s.data, vinChar (Char.toUpper c) = true) →
      validate_vin (some s) = Except.ok (some (upperS s))) ∧
    ((s ≠ "" ∧ (∀ c ∈ s.data, pyIsSpace c = false) ∧
        (s.data.length ≠ 17 ∨ ∃ c ∈ s.data, vinChar (Char.toUpper c) = false)) →
      validate_vin (some s) = Except.error (QErr.InvalidVIN (upperS s))) ∧
    validate_vin (some "") = Except.ok none ∧
    validate_vin none = Except.ok none := by
  refine ⟨?_, ?_, rfl, rfl⟩
  · rintro ⟨h17, hab⟩
    have hs : s ≠ "" := by
      intro hcon
      rw [hcon] at h17
      exact absurd h17 (by decide)
    have hnosp : ∀ c ∈ s.data, pyIsSpace c = false := by
      intro c hc
      cases hsp : pyIsSpace c with
      | false => rfl
      | true =>
          have h1 := space_not_vinChar c hsp
          rw [hab c hc] at h1
          cases h1
    have hstrip : pyStrip s = s := by
      show (⟨pyStripCL s.data⟩ : String) = s
      rw [pyStripCL_of_no_space s.data hnosp]
    have hpat : vinPatternOK (upperS s) = true := by
      unfold vinPatternOK upperS
      simp only [data_mk, Bool.and_eq_true, decide_eq_true_eq,
        List.length_map, List.all_eq_true]
      refine ⟨h17, ?_⟩
      intro x hx
      rcases List.mem_map.mp hx with ⟨c, hc, rfl⟩
      exact hab c hc
    simp [validate_vin, hs, hstrip, hpat]
  · rintro ⟨hs, hnosp, hbad⟩
    have hstrip : pyStrip s = s := by
      show (⟨pyStripCL s.data⟩ : String) = s
      rw [pyStripCL_of_no_space s.data hnosp]
    have hpat : vinPatternOK (upperS s) = false := by
      apply Bool.eq_false_iff.mpr
      intro hp
      unfold vinPatternOK upperS at hp
      simp only [data_mk, Bool.and_eq_true, decide_eq_true_eq,
        List.length_map, List.all_eq_true] at hp
      rcases hp with ⟨hplen, hpall⟩
      rcases hbad with h17 | ⟨c, hc, hcb⟩
      · exact h17 hplen
      · have h1 := hpall (Char.toUpper c) (List.mem_map_of_mem Char.toUpper hc)
        rw [hcb] at h1
        cases h1
    simp [validate_vin, hs, hstrip, hpat]

/-- Claim C5, witness for the amended positive arm at a concrete
mixed-case VIN. -/
theorem validate_vin_amended_witness :
    validate_vin (some "1hgcm82633a004352") =
      Except.ok (some (upperS "1hgcm82633a004352")) :=
  (validate_vin_amended "1hgcm82633a004352").1 ⟨by decide, by decide⟩

/-! ## Claim C6 — `validate_query` length behaviour -/

set_option maxRecDepth 10000 in
/-- Claim C6, counterexample: a query of 501 spaces has length > 500, but
`validate_query` fails with `EmptyQueryError` (the blank check runs first),
not `LongInputError`. -/
theorem validate_query_blank_long_cex :
    (String.mk (List.replicate 501 ' ')).data.length = 501 ∧
    validate_query (String.mk (List.replicate 501 ' ')) =
      Except.error QErr.EmptyQuery ∧
    validate_query (String.mk (List.replicate 501 ' ')) ≠
      Except.error QErr.TooLong := by
  refine ⟨by decide, ?_, ?_⟩ <;> decide

/-- Claim C6 (amended): every non-blank query longer than 500 characters
fails with `LongInputError`; a blank query fails with `EmptyQueryError`
first, whatever its length; and a non-blank query of length at most 500
never fails on length. -/
theorem validate_query_length (q : String) (hblank : pyStripCL q.data ≠ []) :
    (500 < q.data.length → validate_query q = Except.error QErr.TooLong) ∧
    (q.data.length ≤ 500 → validate_query q ≠ Except.error QErr.TooLong) := by
  constructor
  · intro hlen
    unfold validate_query
    rw [if_neg hblank, if_pos hlen]
  · intro hlen
    unfold validate_query
    rw [if_neg hblank, if_neg (by omega : ¬500 < q.data.length)]
    cases h : suspiciousHit q <;> simp

set_option maxRecDepth 10000 in
/-- Claim C6, witness: 501 letters `a` trip the length check. -/
theorem validate_query_length_witness :
    500 < (String.mk (List.replicate 501 'a')).data.length ∧
    validate_query (String.mk (List.replicate 501 'a')) =
      Except.error QErr.TooLong :=
  ⟨by decide,
   (validate_query_length (String.mk (List.replicate 501 'a')) (by decide)).1
     (by decide)⟩

/-! ## Claim C2 — the validation-failure bundle -/

/-- Claim C2, counterexample: on the failing input `""` the bundle returned
by `handle_edge_cases` has keys
`is_valid, error, error_type, sanitized_query, vin, dtc_code` — there is no
`suggestion` key, contrary to the claimed shape
`{is_valid, error, error_type, suggestion}`. -/
theorem handle_edge_cases_no_suggestion_key :
    (handle_edge_cases "" none).map Prod.fst =
      ["is_valid", "error", "error_type", "sanitized_query", "vin", "dtc_code"] ∧
    "suggestion" ∉ (handle_edge_cases "" none).map Prod.fst := by
  refine ⟨by decide, by decide⟩

/-- Claim C2 (amended): for every input on which query validation fails,
`handle_edge_cases` (hence `ensure_valid_input`) never raises and returns the
tagged failure bundle
`{is_valid: false, error, error_type, sanitized_query, vin: null,
dtc_code: null}` carrying the original error kind in `error_type`; the
per-error-kind suggestion string exists in the separate helper
`get_error_suggestion` but is not part of this bundle. -/
theorem handle_edge_cases_failure_bundle (q : String) (vin : Option String)
    (e : QErr) (h : validate_query q = Except.error e) :
    handle_edge_cases q vin =
      [("is_valid", PyVal.pbool false), ("error", PyVal.pstr (errMsg e)),
       ("error_type", PyVal.pstr (errName e)),
       ("sanitized_query", PyVal.pstr (sanitize_input q)),
       ("vin", PyVal.pnone), ("dtc_code", PyVal.pnone)] ∧
    "suggestion" ∉ (handle_edge_cases q vin).map Prod.fst := by
  have h1 : handle_edge_cases q vin =
      [("is_valid", PyVal.pbool false), ("error", PyVal.pstr (errMsg e)),
       ("error_type", PyVal.pstr (errName e)),
       ("sanitized_query", PyVal.pstr (sanitize_input q)),
       ("vin", PyVal.pnone), ("dtc_code", PyVal.pnone)] := by
    unfold handle_edge_cases
    rw [h]
  refine ⟨h1, ?_⟩
  have h2 : (handle_edge_cases q vin).map Prod.fst =
      ["is_valid", "error", "error_type", "sanitized_query", "vin", "dtc_code"] := by
    rw [h1]
    rfl
  rw [h2]
  decide

/-- Claim C2, witness: the injection-pattern input `"<script>"` fails with
`MalformedInputError` and produces the six-key failure bundle. -/
theorem handle_edge_cases_failure_bundle_witness :
    handle_edge_cases "<script>" none =
      [("is_valid", PyVal.pbool false),
       ("error", PyVal.pstr (errMsg (QErr.Malformed "<script"))),
       ("error_type", PyVal.pstr (errName (QErr.Malformed "<script"))),
       ("sanitized_query", PyVal.pstr (sanitize_input "<script>")),
       ("vin", PyVal.pnone), ("dtc_code", PyVal.pnone)] ∧
    "suggestion" ∉ (handle_edge_cases "<script>" none).map Prod.fst :=
  handle_edge_cases_failure_bundle "<script>" none (QErr.Malformed "<script")
    (by decide)

/-! ## Claim C10 — invalid caller VIN is silently discarded -/

/-- The success branch of `handle_edge_cases`. -/
theorem handle_edge_cases_ok (q : String) (vin : Option String)
    (hq : validate_query q = Except.ok ()) :
    handle_edge_cases q vin =
      [("vin", optVal (applyCallerVin (extract_and_validate_components q) vin).vin),
       ("dtc_code", optVal (applyCallerVin (extract_and_validate_components q) vin).dtc_code),
       ("sanitized_query", PyVal.pstr (applyCallerVin (extract_and_validate_components q) vin).sanitized_query),
       ("is_valid", PyVal.pbool true), ("errors", PyVal.plist [])] := by
  unfold handle_edge_cases
  rw [hq]

/-- Claim C10: when the query itself validates but the caller-supplied VIN
does not, `handle_edge_cases` behaves exactly as if no caller VIN had been
given: it still reports `is_valid = true` and keeps the VIN extracted from
the query text (or `None` when the query contains none). -/
theorem handle_edge_cases_invalid_caller_vin (q : String) (v : String)
    (hq : validate_query q = Except.ok ()) (hv : v ≠ "")
    (hbad : ∃ e, validate_vin (some v) = Except.error e) :
    handle_edge_cases q (some v) = handle_edge_cases q none ∧
    handle_edge_cases q (some v) =
      [("vin", optVal (extract_and_validate_components q).vin),
       ("dtc_code", optVal (extract_and_validate_components q).dtc_code),
       ("sanitized_query", PyVal.pstr (extract_and_validate_components q).sanitized_query),
       ("is_valid", PyVal.pbool true), ("errors", PyVal.plist [])] := by
  rcases hbad with ⟨e, he⟩
  have hap : applyCallerVin (extract_and_validate_components q) (some v) =
      extract_and_validate_components q := by
    simp only [applyCallerVin]
    rw [if_neg hv, he]
  have hnone : applyCallerVin (extract_and_validate_components q) none =
      extract_and_validate_components q := rfl
  rw [handle_edge_cases_ok q (some v) hq, handle_edge_cases_ok q none hq,
      hap, hnone]
  exact ⟨rfl, rfl⟩

/-- Claim C10, witness: query `"Engine misfire P0300 today"` with the
invalid caller VIN `"XYZ"`. -/
theorem handle_edge_cases_invalid_caller_vin_witness :
    handle_edge_cases "Engine misfire P0300 today" (some "XYZ") =
      handle_edge_cases "Engine misfire P0300 today" none :=
  (handle_edge_cases_invalid_caller_vin "Engine misfire P0300 today" "XYZ"
    (by decide) (by decide) ⟨QErr.InvalidVIN "XYZ", by decide⟩).1

/-! ## Length lemmas used to exhibit concrete members of search results -/

theorem length_insDesc {α : Type} (key : α → ℚ) (x : α) (l : List α) :
    (insDesc key x l).length = l.length + 1 := by
  induction l with
  | nil => rfl
  | cons y ys ih =>
      show (if key y ≤ key x then x :: y :: ys else y :: insDesc key x ys).length = _
      by_cases h : key y ≤ key x <;> simp [h, ih]

theorem length_stableSortDesc {α : Type} (key : α → ℚ) (l : List α) :
    (stableSortDesc key l).length = l.length := by
  induction l with
  | nil => rfl
  | cons x xs ih =>
      show (insDesc key x (stableSortDesc key xs)).length = _
      rw [length_insDesc, ih, List.length_cons]

theorem headI_mem {α : Type} [Inhabited α] (l : List α) (h : l ≠ []) :
    l.headI ∈ l := by
  cases l with
  | nil => exact absurd rfl h
  | cons a as => exact List.mem_cons_self a as

theorem hybrid_search_ne_nil (db : DB) (raw : Nat → ℚ) (q : String) (k : Nat)
    (v : Option String) (hnd : buildDocs db ≠ []) (hk : 0 < k)
    (hc : 0 < (hybridCandidates db raw q k v).length) :
    hybrid_search db raw q k v ≠ [] := by
  unfold hybrid_search
  rw [if_neg hnd]
  apply List.length_pos.mp
  rw [List.length_take, length_stableSortDesc]
  omega

theorem search_local_ne_nil (db : DB) (q : String) (k : Nat)
    (v : Option String) (hk : 0 < k) (hd : 0 < (searchLocalDocs db).length) :
    search_local db q k v ≠ [] := by
  unfold search_local
  apply List.length_pos.mp
  rw [List.length_take, length_stableSortDesc, List.length_map]
  omega

/-! ## Concrete corpus used by the retrieval witnesses -/

/-- A small concrete database: one DTC row and two recall rows with
different VINs. -/
def dbW : DB :=
  { dtcs := [{ code := "P0420", category := "Engine",
               description := "Catalyst System Efficiency Below Threshold" }],
    recalls := [{ nhtsa_id := 12345, rvin := some "VINX",
                  rdate := some "2024-01-15", summary := some "Airbag recall" },
                { nhtsa_id := 12346, rvin := some "VINY",
                  rdate := some "2024-02-20", summary := some "Brake recall" }] }

/-- A concrete BM25 score vector for the witnesses. -/
def rawW : Nat → ℚ := fun i => if i = 0 then 5 else 25

/-! ## Claim C3 — the VIN filter of `hybrid_search` -/

/-- Claim C3: for every corpus, query and `k`, when a truthy VIN filter is
supplied, every document surviving into the result set either has no `vin`
attribute (or an empty one) or carries exactly the filter VIN; and the filter
predicate never drops a document whose `vin` attribute is absent or falsy
(e.g. DTC records).  In degraded mode the corpus is empty, so the result set
is empty and the guarantee holds vacuously. -/
theorem hybrid_search_vin_filter (db : DB) (raw : Nat → ℚ) (q : String)
    (k : Nat) (v : String) (hv : v ≠ "") (r : RDoc)
    (hr : r ∈ hybrid_search db raw q k (some v)) (ht : truthyO r.vin = true) :
    r.vin = some v ∧
    ∀ d : RDoc, truthyO d.vin = false → vinKeep (some v) d = true := by
  constructor
  · unfold hybrid_search at hr
    by_cases hnil : buildDocs db = []
    · rw [if_pos hnil, search_local_of_buildDocs_nil db q k (some v) hnil] at hr
      cases hr
    · rw [if_neg hnil] at hr
      have h1 := List.take_subset _ _ hr
      have h2 := (mem_stableSortDesc RDoc.score _ r).mp h1
      rcases mem_hybridCandidates db raw q k (some v) r h2 with ⟨p, _, hk, rfl⟩
      have hvin : (hybridEntry (search_local db q (k * 2) (some v)) raw p).vin
          = p.2.vin := rfl
      rw [hvin] at ht ⊢
      have htv : truthyO (some v) = true := by
        simp [truthyO, hv]
      unfold vinKeep at hk
      rw [htv, ht] at hk
      simpa using hk
  · intro d hd
    unfold vinKeep
    rw [hd]
    simp

/-- A one-recall corpus used by the C3 witness (the single document carries
VIN `VINX`, so the head of the result list can be inspected without
evaluating any rational score). -/
def dbC3 : DB :=
  { dtcs := [],
    recalls := [{ nhtsa_id := 777, rvin := some "VINX", rdate := none,
                  summary := some "Airbag recall" }] }

/-- Claim C3, witness: filtering the corpus `dbC3` by VIN `VINX` leaves the
`VINX` recall in the results. -/
theorem hybrid_search_vin_filter_witness :
    ((hybrid_search dbC3 rawW "recall" 3 (some "VINX")).headI).vin =
      some "VINX" :=
  (hybrid_search_vin_filter dbC3 rawW "recall" 3 "VINX" (by decide)
    (hybrid_search dbC3 rawW "recall" 3 (some "VINX")).headI
    (headI_mem _ (hybrid_search_ne_nil dbC3 rawW "recall" 3 (some "VINX")
      (by decide) (by decide) (by decide)))
    (by decide)).1

/-! ## Claim C4 — deterministic ranking, stability and score bounds -/

/-- Claim C4: `hybrid_search` is a pure function of its arguments
(determinism), every returned score lies in `[0, 1]`, the result list is the
top-`k` prefix of a stable descending sort of the candidate list, it is
sorted by non-increasing combined score, and elements of equal score keep
their original insertion order (the sort leaves every equal-score class of the
candidate list unchanged). -/
theorem hybrid_search_ranking (db : DB) (raw : Nat → ℚ) (q : String) (k : Nat)
    (v : Option String) (r : RDoc) (hr : r ∈ hybrid_search db raw q k v) :
    (0 ≤ r.score ∧ r.score ≤ 1) ∧
    (hybrid_search db raw q k v).Pairwise (fun a b => b.score ≤ a.score) ∧
    hybrid_search db raw q k v =
      (stableSortDesc RDoc.score (searchCands db raw q k v)).take k ∧
    ∀ c : ℚ, (stableSortDesc RDoc.score (searchCands db raw q k v)).filter
        (fun x => decide (x.score = c)) =
      (searchCands db raw q k v).filter (fun x => decide (x.score = c)) := by
  refine ⟨?_, ?_, hybrid_search_eq db raw q k v,
    fun c => filter_stableSortDesc RDoc.score _ c⟩
  · rw [hybrid_search_eq] at hr
    have h1 := List.take_subset _ _ hr
    have h2 := (mem_stableSortDesc RDoc.score _ r).mp h1
    unfold searchCands at h2
    by_cases hnil : buildDocs db = []
    · rw [if_pos hnil] at h2
      rcases List.mem_map.mp h2 with ⟨d, _, he⟩
      rw [← he]
      exact scoreDoc_bounds q v d
    · rw [if_neg hnil] at h2
      exact hybridCandidates_score_bounds db raw q k v r h2
  · rw [hybrid_search_eq]
    exact List.Pairwise.sublist (List.take_sublist k _)
      (sorted_stableSortDesc RDoc.score _)

/-- Claim C4, witness: concrete search on `dbW` for `"brake"`. -/
theorem hybrid_search_ranking_witness :
    0 ≤ ((hybrid_search dbW rawW "brake" 2 none).headI).score ∧
    ((hybrid_search dbW rawW "brake" 2 none).headI).score ≤ 1 :=
  (hybrid_search_ranking dbW rawW "brake" 2 none
    (hybrid_search dbW rawW "brake" 2 none).headI
    (headI_mem _ (hybrid_search_ne_nil dbW rawW "brake" 2 none
      (by decide) (by decide) (by decide)))).1

/-! ## Claim C7 — the 0.7/0.3 score blend in hybrid mode -/

/-- Claim C7: in hybrid (non-degraded) mode every ranked document carries a
combined score equal to `0.7 * vector_score + 0.3 * lexical_score`, where the
lexical score is the raw BM25 score of that document divided by the fixed
normalisation constant 10 and clamped into `[0, 1]`. -/
theorem hybrid_search_score_blend (db : DB) (raw : Nat → ℚ) (q : String)
    (k : Nat) (v : Option String) (r : RDoc) (hnd : buildDocs db ≠ [])
    (hr : r ∈ hybrid_search db raw q k v) :
    ∃ vs bs i, i < (buildDocs db).length ∧
      r.vector_score = some vs ∧ r.bm25_score = some bs ∧
      r.score = 0.7 * vs + 0.3 * bs ∧ bs = max 0 (min (raw i / 10) 1) := by
  unfold hybrid_search at hr
  rw [if_neg hnd] at hr
  have h1 := List.take_subset _ _ hr
  have h2 := (mem_stableSortDesc RDoc.score _ r).mp h1
  rcases mem_hybridCandidates db raw q k v r h2 with ⟨p, hp, _, rfl⟩
  rcases mem_withIdx 0 (buildDocs db) p hp with ⟨hlt, _⟩
  exact ⟨vecScoreFor (search_local db q (k * 2) v) p.2, normBM25 (raw p.1),
    p.1, by simpa using hlt, (hybridEntry_score _ raw p).2.1,
    (hybridEntry_score _ raw p).2.2, (hybridEntry_score _ raw p).1,
    normBM25_eq_clamp _⟩

/-- Claim C7, witness: concrete hybrid search on `dbW` for `"P0420"`. -/
theorem hybrid_search_score_blend_witness :
    ∃ vs bs i, i < (buildDocs dbW).length ∧
      ((hybrid_search dbW rawW "P0420" 1 none).headI).vector_score = some vs ∧
      ((hybrid_search dbW rawW "P0420" 1 none).headI).bm25_score = some bs ∧
      ((hybrid_search dbW rawW "P0420" 1 none).headI).score =
        0.7 * vs + 0.3 * bs ∧
      bs = max 0 (min (rawW i / 10) 1) :=
  hybrid_search_score_blend dbW rawW "P0420" 1 none
    (hybrid_search dbW rawW "P0420" 1 none).headI (by decide)
    (headI_mem _ (hybrid_search_ne_nil dbW rawW "P0420" 1 none
      (by decide) (by decide) (by decide)))

/-! ## Claim C8 — the degraded-mode keyword-overlap heuristic -/

/-- Claim C8: every document scored by the fallback engine `search_local`
(the branch `hybrid_search` takes in degraded mode) carries the score
`0.8·[query is a substring of the text] + 0.1·(distinct shared tokens) +
0.5·[VIN filter matches the document VIN substring]`, clamped to `[0, 1]`. -/
theorem search_local_degraded_scoring (db : DB) (raw : Nat → ℚ) (q : String)
    (k : Nat) (v : Option String) (r : RDoc) (hr : r ∈ search_local db q k v) :
    r.score = max 0 (min
      ((if pyIn (lowerS q) (lowerS r.text) then (0.8 : ℚ) else 0) +
        (overlapCount (lowerS q) (lowerS r.text) : ℚ) * 0.1 +
        (if vinBoost v r.vin then (0.5 : ℚ) else 0)) 1) ∧
    (buildDocs db = [] → hybrid_search db raw q k v = search_local db q k v) := by
  constructor
  · rcases mem_search_local db q k v r hr with ⟨d, _, rfl⟩
    have h0 : (0 : ℚ) ≤ min
        ((if pyIn (lowerS q) (lowerS d.text) then (0.8 : ℚ) else 0) +
          (overlapCount (lowerS q) (lowerS d.text) : ℚ) * 0.1 +
          (if vinBoost v d.vin then (0.5 : ℚ) else 0)) 1 := by
      refine le_min ?_ (by norm_num)
      split_ifs <;> positivity
    show scoreDoc q v d = _
    unfold scoreDoc
    rw [max_eq_right h0]
  · intro hnil
    unfold hybrid_search
    rw [if_pos hnil]

/-- Claim C8, witness: concrete fallback scoring on `dbW` for `"airbag"`. -/
theorem search_local_degraded_scoring_witness :
    ((search_local dbW "airbag" 3 none).headI).score = max 0 (min
      ((if pyIn (lowerS "airbag")
          (lowerS ((search_local dbW "airbag" 3 none).headI).text)
        then (0.8 : ℚ) else 0) +
        (overlapCount (lowerS "airbag")
          (lowerS ((search_local dbW "airbag" 3 none).headI).text) : ℚ) * 0.1 +
        (if vinBoost none ((search_local dbW "airbag" 3 none).headI).vin
         then (0.5 : ℚ) else 0)) 1) :=
  (search_local_degraded_scoring dbW rawW "airbag" 3 none
    (search_local dbW "airbag" 3 none).headI
    (headI_mem _ (search_local_ne_nil dbW "airbag" 3 none
      (by decide) (by decide)))).1

/-! ## Claim C1 — the P0420 scenario without a generative model -/

/-- The environment of the C1 scenario: no OpenAI API key is configured, and
the HTTP collaborators behave as on an idle deployment (`search` returns no
results, the DTC lookup finds nothing); the generative provider is
unreachable. -/
def envC1 : Env :=
  { apiKey := none, searchFn := fun _ _ _ => [], dtcFn := fun _ => none,
    recallsFn := fun _ => [], llmFn := fun _ => Except.error "no provider" }

/-- Claim C1 (code bug): on the query
`"My car is showing P0420 error code"` with no caller VIN and no OpenAI key,
`react` does **not** return the templated answer the spec describes.  No VIN
is extracted, so the Python local `recalls` (assigned only inside
`if extracted_vin:`) is unbound when the fallback call reads it; the
resulting `UnboundLocalError` is swallowed by the catch-all handler and
`react` returns the four-key error dictionary, which has no `answer` field at
all. -/
theorem react_p0420_no_key_errors :
    react envC1 "My car is showing P0420 error code" none =
      ReactResult.err "My car is showing P0420 error code" unboundMsg ∧
    (react envC1 "My car is showing P0420 error code" none).keys =
      ["query", "error", "processing_time", "timestamp"] ∧
    "answer" ∉ (react envC1 "My car is showing P0420 error code" none).keys := by
  refine ⟨?_, ?_, ?_⟩ <;> decide

/-! ## Claim C9 — the error-result shape of `react` -/

/-- Claim C9: `react` never propagates an exception: whenever the body of the
`try` block fails, the caller receives the error dictionary with exactly the
keys `query, error, processing_time, timestamp` and none of the success
fields (`answer`, `search_results`, `recalls`, or the `thoughts`/trace
lists). -/
theorem react_error_shape (env : Env) (q : String) (v : Option String)
    (e : String) (h : reactBody env q v = Except.error e) :
    react env q v = ReactResult.err q e ∧
    (react env q v).keys = ["query", "error", "processing_time", "timestamp"] ∧
    "answer" ∉ (react env q v).keys ∧
    "search_results" ∉ (react env q v).keys ∧
    "recalls" ∉ (react env q v).keys ∧
    "thoughts" ∉ (react env q v).keys := by
  have h1 : react env q v = ReactResult.err q e := by
    unfold react
    rw [h]
  have hk : (ReactResult.err q e).keys =
      ["query", "error", "processing_time", "timestamp"] := rfl
  refine ⟨h1, by rw [h1, hk], ?_, ?_, ?_, ?_⟩ <;> rw [h1, hk] <;> decide

/-- The environment of the C9 witness scenario. -/
def envC9 : Env :=
  { apiKey := none, searchFn := fun _ _ _ => [], dtcFn := fun _ => none,
    recallsFn := fun _ => [], llmFn := fun _ => Except.error "unreachable" }

/-- Claim C9, witness: a VIN-less query on which the run fails with the
unbound-`recalls` error. -/
theorem react_error_shape_witness :
    react envC9 "Rough idle and stalling" none =
      ReactResult.err "Rough idle and stalling" unboundMsg ∧
    (react envC9 "Rough idle and stalling" none).keys =
      ["query", "error", "processing_time", "timestamp"] :=
  ⟨(react_error_shape envC9 "Rough idle and stalling" none unboundMsg
      (by decide)).1,
   (react_error_shape envC9 "Rough idle and stalling" none unboundMsg
      (by decide)).2.1⟩

end AutoSense
